import Mathlib

/-!
Verification development for the Immersive-clock noise-monitor core.

The definitions below are a shallow embedding of the TypeScript source:
* `src/constants.ts` — compiled-in analysis constants;
* `src/utils/noiseScoreEngine.ts` — `computeNoiseSliceScore`;
* `src/services/noiseService.ts` — per-frame slice aggregation (gap
  detection and segment detection), the calibration state machine,
  slice persistence (`saveSlice`), and the math helpers
  (`computeRmsAndPeak`, `computeAvgDbfsFromDbfsArray`,
  `computeQuantileFromDbfsArray`, `computeDisplayDbFromRms`, `clamp01`);
* the settings module (`saveNoiseControlSettings`).

JavaScript numbers are modelled as exact rationals (`ℚ`) where the code
only uses field arithmetic, comparisons, `Math.max/min/round/floor`, and
as real numbers (`ℝ`) where the code uses `Math.log10`, `Math.pow` with
fractional exponents or `Math.sqrt`.  `Math.round x` in JavaScript is
`⌊x + 1/2⌋`.  Arrays are lists; `Array.prototype.shift` is `List.tail`;
`Array.prototype.push` appends at the tail.
-/

set_option maxHeartbeats 2000000
set_option maxRecDepth 4000

namespace NoiseMonitor

/-! ### Constants (src/constants.ts) -/

/-- `NOISE_ANALYSIS_SLICE_SEC = 30` (src/constants.ts line 9). -/
def NOISE_ANALYSIS_SLICE_SEC : ℚ := 30

/-- `NOISE_ANALYSIS_FRAME_MS = 50` (src/constants.ts line 16). -/
def NOISE_ANALYSIS_FRAME_MS : ℚ := 50

/-- `NOISE_SCORE_THRESHOLD_DBFS = -50` (src/constants.ts line 24). -/
def NOISE_SCORE_THRESHOLD_DBFS : ℚ := -50

/-- `NOISE_SCORE_SEGMENT_MERGE_GAP_MS = 500` (src/constants.ts line 32). -/
def NOISE_SCORE_SEGMENT_MERGE_GAP_MS : ℚ := 500

/-- `NOISE_SCORE_MAX_SEGMENTS_PER_MIN = 6` (src/constants.ts line 39). -/
def NOISE_SCORE_MAX_SEGMENTS_PER_MIN : ℚ := 6

/-- `INVALID_DBFS_THRESHOLD = -90` (src/constants.ts line 60). -/
def INVALID_DBFS_THRESHOLD : ℚ := -90

/-- `DEFAULT_DISPLAY_BASELINE_DB = 40` (src/constants.ts line 69). -/
def DEFAULT_DISPLAY_BASELINE_DB : ℚ := 40

/-- JavaScript `Math.round`: round half towards positive infinity,
`Math.round x = ⌊x + 1/2⌋`. -/
def jsRound (x : ℚ) : ℤ := ⌊x + 1/2⌋

/-- `clamp01` (src/services/noiseMath section, lines 874-876):
`Math.max(0, Math.min(1, val))`. -/
def clamp01 (val : ℚ) : ℚ := max 0 (min 1 val)

/-! ### Score engine (src/utils/noiseScoreEngine.ts) -/

/-- `NoiseSliceRawStats` (src/types.ts lines 18-28).  The optional
fields are always populated by the service before scoring, so they are
modelled as plain rationals; a missing/zero `sampledDurationMs` is the
falsy case of the `raw.sampledDurationMs && raw.sampledDurationMs > 0`
test in the engine, which the `0 < sampledDurationMs` test below
reproduces. -/
structure NoiseSliceRawStats where
  avgDbfs : ℚ
  maxDbfs : ℚ
  p50Dbfs : ℚ
  p95Dbfs : ℚ
  overRatioDbfs : ℚ
  segmentCount : ℚ
  sampledDurationMs : ℚ
  gapCount : ℚ
  maxGapMs : ℚ
deriving DecidableEq

/-- Sustained-noise penalty (noiseScoreEngine.ts lines 43-44):
`clamp01(Math.max(0, p50Dbfs - threshold) / 6)`. -/
def sustainedPenalty (raw : NoiseSliceRawStats) : ℚ :=
  clamp01 (max 0 (raw.p50Dbfs - NOISE_SCORE_THRESHOLD_DBFS) / 6)

/-- Time-ratio penalty (noiseScoreEngine.ts line 52):
`clamp01(overRatioDbfs / 0.3)`. -/
def timePenalty (raw : NoiseSliceRawStats) : ℚ :=
  clamp01 (raw.overRatioDbfs / 0.3)

/-- Effective duration (noiseScoreEngine.ts lines 60-62): the sampled
duration when positive, otherwise the physical duration. -/
def effectiveDurationMs (raw : NoiseSliceRawStats) (durationMs : ℚ) : ℚ :=
  if 0 < raw.sampledDurationMs then raw.sampledDurationMs else durationMs

/-- Minutes of effective duration (noiseScoreEngine.ts line 64):
`Math.max(1e-6, effectiveDurationMs / 60000)`. -/
def scoreMinutes (raw : NoiseSliceRawStats) (durationMs : ℚ) : ℚ :=
  max (1e-6) (effectiveDurationMs raw durationMs / 60000)

/-- Segment-frequency penalty (noiseScoreEngine.ts lines 65-66):
`clamp01((segmentCount / minutes) / Math.max(1e-6, maxSegmentsPerMin))`. -/
def segmentPenalty (raw : NoiseSliceRawStats) (durationMs : ℚ) : ℚ :=
  clamp01 ((raw.segmentCount / scoreMinutes raw durationMs) /
    max (1e-6) NOISE_SCORE_MAX_SEGMENTS_PER_MIN)

/-- Weighted total penalty (noiseScoreEngine.ts line 72):
`0.4 * sustained + 0.3 * time + 0.3 * segment`. -/
def totalPenalty (raw : NoiseSliceRawStats) (durationMs : ℚ) : ℚ :=
  0.4 * sustainedPenalty raw + 0.3 * timePenalty raw + 0.3 * segmentPenalty raw durationMs

/-- `NoiseScoreBreakdown` (src/types.ts lines 43-59), restricted to the
numeric fields actually computed by the engine; the `thresholdsUsed`
snapshot and the echoed duration fields are verbatim copies of the
constants and arguments and are omitted from the model. -/
structure NoiseScoreBreakdown where
  sustainedPenalty : ℚ
  timePenalty : ℚ
  segmentPenalty : ℚ
  sustainedLevelDbfs : ℚ
  overRatioDbfs : ℚ
  segmentCount : ℚ
  minutes : ℚ
deriving DecidableEq

/-- `computeNoiseSliceScore` (noiseScoreEngine.ts lines 32-102): final
score `Math.max(0, Math.min(100, Math.round(100 * (1 - totalPenalty) * 10) / 10))`
together with the penalty breakdown. -/
def computeNoiseSliceScore (raw : NoiseSliceRawStats) (durationMs : ℚ) :
    ℚ × NoiseScoreBreakdown :=
  let scoreRaw := 100 * (1 - totalPenalty raw durationMs)
  let score := max 0 (min 100 ((jsRound (scoreRaw * 10) : ℚ) / 10))
  (score,
    { sustainedPenalty := sustainedPenalty raw
      timePenalty := timePenalty raw
      segmentPenalty := segmentPenalty raw durationMs
      sustainedLevelDbfs := raw.p50Dbfs
      overRatioDbfs := raw.overRatioDbfs
      segmentCount := raw.segmentCount
      minutes := scoreMinutes raw durationMs })

/-! ### Slice aggregation state machine (src/services/noiseService.ts)

Per-frame processing, steps 3-5 of `NoiseService.processFrame`
(lines 462-515): gap detection, valid-frame aggregation, above-threshold
duration, and segment detection with temporal merging.  A frame is the
pair of its wall-clock timestamp (`Date.now()` at line 438, also used
for the merge-gap measurement at line 500 and the segment-end stamp at
line 512) and its computed `dbfs` value. -/

/-- The mutable per-slice fields of `NoiseService` that steps 3-5 of
`processFrame` read and write (noiseService.ts lines 127-162). -/
structure SliceState where
  sliceDbfsValues : List ℚ
  sliceAboveThresholdDuration : ℚ
  sliceFramesTotal : ℕ
  sliceSampledDuration : ℚ
  isAboveThreshold : Bool
  segmentCount : ℕ
  lastSegmentEndTs : ℚ
  lastProcessedFrameTs : Option ℚ
  gapCount : ℕ
  maxGapMs : ℚ
deriving DecidableEq

/-- `NoiseService.resetSlice` (lines 578-592) restricted to the
`SliceState` fields. -/
def resetSlice : SliceState :=
  { sliceDbfsValues := []
    sliceAboveThresholdDuration := 0
    sliceFramesTotal := 0
    sliceSampledDuration := 0
    isAboveThreshold := false
    segmentCount := 0
    lastSegmentEndTs := 0
    lastProcessedFrameTs := none
    gapCount := 0
    maxGapMs := 0 }

/-- Steps 3-5 of `NoiseService.processFrame` (lines 462-515): gap
detection and effective frame duration, aggregation of valid frames
(`dbfs >= INVALID_DBFS_THRESHOLD`), above-threshold duration, and the
hysteresis segment detector with 500 ms merge gap. -/
def processFrameStep (s : SliceState) (frameTs : ℚ) (dbfs : ℚ) : SliceState :=
  let gapThresholdMs := max 1000 (NOISE_ANALYSIS_FRAME_MS * 5)
  let upd :=
    match s.lastProcessedFrameTs with
    | none => (NOISE_ANALYSIS_FRAME_MS, s.gapCount, s.maxGapMs)
    | some last =>
        let dt := frameTs - last
        if gapThresholdMs < dt then
          (NOISE_ANALYSIS_FRAME_MS, s.gapCount + 1, max s.maxGapMs dt)
        else
          (dt, s.gapCount, s.maxGapMs)
  let frameDuration := upd.1
  let s1 := { s with lastProcessedFrameTs := some frameTs
                     gapCount := upd.2.1
                     maxGapMs := upd.2.2 }
  if INVALID_DBFS_THRESHOLD ≤ dbfs then
    let isCurrentlyAbove := NOISE_SCORE_THRESHOLD_DBFS < dbfs
    let s2 := { s1 with sliceDbfsValues := s1.sliceDbfsValues ++ [dbfs]
                        sliceFramesTotal := s1.sliceFramesTotal + 1
                        sliceSampledDuration := s1.sliceSampledDuration + frameDuration }
    let s3 :=
      if isCurrentlyAbove then
        { s2 with sliceAboveThresholdDuration := s2.sliceAboveThresholdDuration + frameDuration }
      else s2
    if isCurrentlyAbove then
      if s3.isAboveThreshold then s3
      else
        let timeSinceLast := frameTs - s3.lastSegmentEndTs
        let s4 :=
          if s3.lastSegmentEndTs = 0 ∨ NOISE_SCORE_SEGMENT_MERGE_GAP_MS < timeSinceLast then
            { s3 with segmentCount := s3.segmentCount + 1 }
          else s3
        { s4 with isAboveThreshold := true }
    else
      if s3.isAboveThreshold then
        { s3 with isAboveThreshold := false, lastSegmentEndTs := frameTs }
      else s3
  else s1

/-- Fold `processFrameStep` over a list of `(timestamp, dbfs)` frames,
starting from a freshly reset slice. -/
def processFrames (frames : List (ℚ × ℚ)) : SliceState :=
  frames.foldl (fun s f => processFrameStep s f.1 f.2) resetSlice

/-! ### Calibration state machine (src/services/noiseService.ts) -/

/-- `NoiseStreamStatus` (src/types.ts lines 90-95). -/
inductive NoiseStreamStatus where
  | initializing
  | active
  | paused
  | permissionDenied
  | error
deriving DecidableEq

/-- The fields of `NoiseService` that the calibration lifecycle touches
(lines 72, 86-107, 115). -/
structure ServiceState where
  status : NoiseStreamStatus
  warmupFramesRemaining : ℕ
  baselineDb : ℚ
  baselineRms : ℚ
  isCalibrating : Bool
  calibrationTargetDb : ℚ
  calibrationBuffer : List ℚ
deriving DecidableEq

/-- Constructor state (lines 86-104 field initialisers and line 185):
status `paused`, `baselineDb = 40`, `baselineRms = 10^(-60/20) = 1/1000`,
no calibration in progress.  The constructor also folds in any stored
settings, which the default store leaves unchanged. -/
def initialServiceState : ServiceState :=
  { status := .paused
    warmupFramesRemaining := 0
    baselineDb := 40
    baselineRms := 1/1000
    isCalibrating := false
    calibrationTargetDb := 0
    calibrationBuffer := [] }

/-- `NoiseService.calibrate` (lines 217-229): rejected unless active;
otherwise arms collection with an empty buffer. -/
def calibrate (s : ServiceState) (targetDb : ℚ) : ServiceState :=
  if s.status ≠ .active then s
  else
    { s with isCalibrating := true
             calibrationTargetDb := targetDb
             calibrationBuffer := [] }

/-- `NoiseService.processCalibrationFrame` (lines 237-264): push the
frame's rms; once `3000 / NOISE_ANALYSIS_FRAME_MS = 60` samples are
collected, commit the arithmetic mean as the new baseline amplitude
bound to the target level (the service also persists the same pair via
`saveNoiseControlSettings`, which echoes it back unchanged). -/
def processCalibrationFrame (s : ServiceState) (rms : ℚ) : ServiceState :=
  if s.isCalibrating then
    let buf := s.calibrationBuffer ++ [rms]
    let framesNeeded : ℚ := 3000 / NOISE_ANALYSIS_FRAME_MS
    if framesNeeded ≤ (buf.length : ℚ) then
      let avgRms := buf.foldl (· + ·) 0 / (buf.length : ℚ)
      { s with isCalibrating := false
               baselineRms := avgRms
               baselineDb := s.calibrationTargetDb
               calibrationBuffer := buf }
    else
      { s with calibrationBuffer := buf }
  else s

/-- The calibration-relevant part of one iteration of the service loop
(lines 396-409 and 426-447): nothing runs unless the status is active;
warm-up frames are discarded; otherwise the frame's rms feeds the
calibration collector when one is armed. -/
def loopStep (s : ServiceState) (rms : ℚ) : ServiceState :=
  if s.status ≠ .active then s
  else if 0 < s.warmupFramesRemaining then
    { s with warmupFramesRemaining := s.warmupFramesRemaining - 1 }
  else if s.isCalibrating then processCalibrationFrame s rms
  else s

/-- `NoiseService.start` (lines 309-360), successful-acquisition path
restricted to the `ServiceState` fields: a duplicate start while active
is a no-op, otherwise the status becomes active and 10 warm-up frames
are scheduled.  No calibration field is touched. -/
def startService (s : ServiceState) : ServiceState :=
  if s.status = .active then s
  else { s with status := .active, warmupFramesRemaining := 10 }

/-- `NoiseService.stop` (lines 367-388) restricted to the `ServiceState`
fields: a duplicate stop while paused is a no-op, otherwise the status
becomes paused.  The method finalizes the pending slice and releases the
audio resources; it does not write any calibration or baseline field. -/
def stopService (s : ServiceState) : ServiceState :=
  if s.status = .paused then s else { s with status := .paused }

/-- Feed `n` frames of constant rms through the service loop. -/
def feedFrames (s : ServiceState) (n : ℕ) (rms : ℚ) : ServiceState :=
  (List.replicate n rms).foldl loopStep s

/-! ### Persistence (NoiseService.saveSlice, lines 678-696) -/

/-- A stored slice summary.  `saveSlice` inspects only the end
timestamp; the identity and score stand in for the remaining summary
payload (src/types.ts lines 65-74). -/
structure StoredSliceSummary where
  id : ℕ
  startTs : ℚ
  endTs : ℚ
  score : ℚ
deriving DecidableEq

/-- Retention horizon (line 685): `14 * 24 * 60 * 60 * 1000` ms. -/
def retentionMs : ℚ := 14 * 24 * 60 * 60 * 1000

/-- `NoiseService.saveSlice` (lines 678-696) acting on the decoded
stored list: append the new summary, keep entries with
`now - end < retentionMs`, and if more than 1000 remain drop the first
(oldest) entry once via `Array.prototype.shift`. -/
def saveSlice (stored : List StoredSliceSummary) (slice : StoredSliceSummary)
    (now : ℚ) : List StoredSliceSummary :=
  let list := stored ++ [slice]
  let filteredList := list.filter (fun s => now - s.endTs < retentionMs)
  if 1000 < filteredList.length then filteredList.tail else filteredList

/-! ### Control settings (src/unnamed/part_002, noiseControlSettings) -/

/-- `NoiseControlSettings` (src/types.ts lines 115-127). -/
structure NoiseControlSettings where
  maxLevelDb : ℚ
  baselineDb : ℚ
  showRealtimeDb : Bool
  avgWindowSec : ℚ
  sliceSec : ℚ
  frameMs : ℚ
  scoreThresholdDbfs : ℚ
  segmentMergeGapMs : ℚ
  maxSegmentsPerMin : ℚ
  alertSoundEnabled : Bool
  baselineRms : Option ℚ
deriving DecidableEq

/-- `DEFAULT_SETTINGS` (part_002 lines 17-29). -/
def DEFAULT_SETTINGS : NoiseControlSettings :=
  { maxLevelDb := 55
    baselineDb := DEFAULT_DISPLAY_BASELINE_DB
    showRealtimeDb := true
    avgWindowSec := 1
    sliceSec := NOISE_ANALYSIS_SLICE_SEC
    frameMs := NOISE_ANALYSIS_FRAME_MS
    scoreThresholdDbfs := NOISE_SCORE_THRESHOLD_DBFS
    segmentMergeGapMs := NOISE_SCORE_SEGMENT_MERGE_GAP_MS
    maxSegmentsPerMin := NOISE_SCORE_MAX_SEGMENTS_PER_MIN
    alertSoundEnabled := false
    baselineRms := none }

/-- `Partial<NoiseControlSettings>`: every field optionally supplied by
the caller. -/
structure PartialNoiseControlSettings where
  maxLevelDb : Option ℚ := none
  baselineDb : Option ℚ := none
  showRealtimeDb : Option Bool := none
  avgWindowSec : Option ℚ := none
  sliceSec : Option ℚ := none
  frameMs : Option ℚ := none
  scoreThresholdDbfs : Option ℚ := none
  segmentMergeGapMs : Option ℚ := none
  maxSegmentsPerMin : Option ℚ := none
  alertSoundEnabled : Option Bool := none
  baselineRms : Option ℚ := none

/-- The object spread `{ ...current, ...settings }` (part_002 line 74):
each field supplied by the caller overrides the current value. -/
def mergeSettings (current : NoiseControlSettings)
    (settings : PartialNoiseControlSettings) : NoiseControlSettings :=
  { maxLevelDb := settings.maxLevelDb.getD current.maxLevelDb
    baselineDb := settings.baselineDb.getD current.baselineDb
    showRealtimeDb := settings.showRealtimeDb.getD current.showRealtimeDb
    avgWindowSec := settings.avgWindowSec.getD current.avgWindowSec
    sliceSec := settings.sliceSec.getD current.sliceSec
    frameMs := settings.frameMs.getD current.frameMs
    scoreThresholdDbfs := settings.scoreThresholdDbfs.getD current.scoreThresholdDbfs
    segmentMergeGapMs := settings.segmentMergeGapMs.getD current.segmentMergeGapMs
    maxSegmentsPerMin := settings.maxSegmentsPerMin.getD current.maxSegmentsPerMin
    alertSoundEnabled := settings.alertSoundEnabled.getD current.alertSoundEnabled
    baselineRms :=
      match settings.baselineRms with
      | some v => some v
      | none => current.baselineRms }

/-- `saveNoiseControlSettings` (part_002 lines 72-89) acting on the
current stored settings: merge the caller's partial object over the
current settings, then overwrite the five fixed fields with the engine
constants.  The resulting object is both stored and broadcast in the
settings-changed event. -/
def saveNoiseControlSettings (current : NoiseControlSettings)
    (settings : PartialNoiseControlSettings) : NoiseControlSettings :=
  let next := mergeSettings current settings
  { next with sliceSec := NOISE_ANALYSIS_SLICE_SEC
              frameMs := NOISE_ANALYSIS_FRAME_MS
              scoreThresholdDbfs := NOISE_SCORE_THRESHOLD_DBFS
              segmentMergeGapMs := NOISE_SCORE_SEGMENT_MERGE_GAP_MS
              maxSegmentsPerMin := NOISE_SCORE_MAX_SEGMENTS_PER_MIN }

/-! ### Real-valued math helpers (noiseMath section of noiseService.ts)

These functions use `Math.log10`, fractional `Math.pow` and `Math.sqrt`
and are therefore modelled over `ℝ`, with `10 ** x` as `Real.rpow` and
`Math.log10` as `Real.logb 10`. -/

/-- `DBFS_MIN_POSSIBLE = -100` (src/constants.ts line 47), as a real. -/
noncomputable def DBFS_MIN_POSSIBLE : ℝ := -100

/-- `DBFS_MAX_POSSIBLE = 0` (src/constants.ts line 53), as a real. -/
noncomputable def DBFS_MAX_POSSIBLE : ℝ := 0

/-- `computeRmsAndPeak` (lines 741-756): one pass accumulating the sum
of squares and the running peak (`if |v| > peak then |v| else peak`),
then `rms = sqrt(sum / Math.max(1, length))`. -/
noncomputable def computeRmsAndPeak (data : List ℝ) : ℝ × ℝ :=
  let acc := data.foldl
    (fun (a : ℝ × ℝ) v => (a.1 + v * v, if a.2 < |v| then |v| else a.2)) (0, 0)
  (Real.sqrt (acc.1 / max 1 (data.length : ℝ)), acc.2)

/-- `computeDisplayDbFromRms` (lines 790-805):
`Math.max(20, Math.min(100, baselineDb + 20 * log10(safeRms / safeBase)))`
with both amplitudes floored at `1e-12`. -/
noncomputable def computeDisplayDbFromRms (rms baselineRms baselineDb : ℝ) : ℝ :=
  let safeRms := max (1e-12) rms
  let safeBase := max (1e-12) baselineRms
  let displayDb := baselineDb + 20 * Real.logb 10 (safeRms / safeBase)
  max 20 (min 100 displayDb)

/-- The calibration commit average (lines 247-248):
`buffer.reduce((a, b) => a + b, 0) / buffer.length`. -/
noncomputable def calibrationAvgRms (buf : List ℝ) : ℝ :=
  buf.foldl (· + ·) 0 / (buf.length : ℝ)

/-- `computeAvgDbfsFromDbfsArray` (lines 818-830): power-domain mean
`10 * log10(max(mean(10 ^ (db/10)), 1e-12))`, clamped to `[-100, 0]`;
the empty array yields `DBFS_MIN_POSSIBLE`. -/
noncomputable def computeAvgDbfsFromDbfsArray (dbfsArr : List ℝ) : ℝ :=
  if dbfsArr = [] then DBFS_MIN_POSSIBLE
  else
    let sumPower := dbfsArr.foldl (fun s db => s + (10 : ℝ) ^ (db / 10)) 0
    let meanPower := sumPower / (dbfsArr.length : ℝ)
    let avgDbfs := 10 * Real.logb 10 (max meanPower (1e-12))
    max DBFS_MIN_POSSIBLE (min DBFS_MAX_POSSIBLE avgDbfs)

/-- `computeQuantileFromDbfsArray` (lines 845-863): map to amplitude
`10 ^ (db/20)`, sort ascending, take the linearly interpolated order
statistic at index `(n-1)*p`, and return `20 * log10(max(q, 1e-12))`;
the empty array yields `DBFS_MIN_POSSIBLE`.  Out-of-range indices (only
reachable when `p` is outside `[0,1]`) read as `0`, standing in for the
undefined element access of the source. -/
noncomputable def computeQuantileFromDbfsArray (dbfsArr : List ℝ) (p : ℝ) : ℝ :=
  if dbfsArr = [] then DBFS_MIN_POSSIBLE
  else
    let rmsArr := (dbfsArr.map (fun db => (10 : ℝ) ^ (db / 20))).mergeSort
      (fun a b => a ≤ b)
    let idx := ((rmsArr.length : ℝ) - 1) * p
    let lo := ⌊idx⌋
    let hi := ⌈idx⌉
    let w := idx - (lo : ℝ)
    let quantileRms :=
      if lo = hi then rmsArr.getD lo.toNat 0
      else rmsArr.getD lo.toNat 0 * (1 - w) + rmsArr.getD hi.toNat 0 * w
    20 * Real.logb 10 (max quantileRms (1e-12))

/-! ## Helper lemmas -/

theorem feedFrames_zero (s : ServiceState) (rms : ℚ) : feedFrames s 0 rms = s := rfl

theorem feedFrames_succ (s : ServiceState) (n : ℕ) (rms : ℚ) :
    feedFrames s (n + 1) rms = feedFrames (loopStep s rms) n rms := by
  simp [feedFrames, List.replicate_succ]

theorem feedFrames_succ_last (s : ServiceState) (n : ℕ) (rms : ℚ) :
    feedFrames s (n + 1) rms = loopStep (feedFrames s n rms) rms := by
  simp [feedFrames, List.replicate_succ', List.foldl_append]

/-- While active, the warm-up counter absorbs exactly its own number of
frames without touching anything else. -/
theorem feedFrames_warmup (n : ℕ) : ∀ (s : ServiceState) (rms : ℚ),
    s.status = .active → s.warmupFramesRemaining = n →
    feedFrames s n rms = { s with warmupFramesRemaining := 0 } := by
  induction n with
  | zero =>
    intro s rms hs hw
    cases s
    simp_all [feedFrames_zero]
  | succ n ih =>
    intro s rms hs hw
    rw [feedFrames_succ]
    have hstep : loopStep s rms = { s with warmupFramesRemaining := n } := by
      unfold loopStep
      rw [if_neg (by simp [hs]), if_pos (by omega)]
      simp [hw]
    rw [hstep]
    exact ih _ rms (by simp [hs]) (by simp)

/-- A collection frame strictly below the 60-sample commit point only
appends to the calibration buffer. -/
theorem loopStep_collect (s : ServiceState) (rms : ℚ)
    (hs : s.status = .active) (hw : s.warmupFramesRemaining = 0)
    (hc : s.isCalibrating = true) (hl : s.calibrationBuffer.length + 1 < 60) :
    loopStep s rms = { s with calibrationBuffer := s.calibrationBuffer ++ [rms] } := by
  have hnot : ¬ ((3000 : ℚ) / NOISE_ANALYSIS_FRAME_MS ≤
      (((s.calibrationBuffer ++ [rms]).length : ℕ) : ℚ)) := by
    rw [show (3000 : ℚ) / NOISE_ANALYSIS_FRAME_MS = 60 by
      norm_num [NOISE_ANALYSIS_FRAME_MS]]
    push_neg
    have h59 : (s.calibrationBuffer ++ [rms]).length ≤ 59 := by
      simp only [List.length_append, List.length_cons, List.length_nil]
      omega
    have h59q : (((s.calibrationBuffer ++ [rms]).length : ℕ) : ℚ) ≤ 59 := by
      exact_mod_cast h59
    linarith
  simp only [loopStep, processCalibrationFrame]
  rw [if_neg (by simp [hs]), if_neg (by omega), if_pos hc, if_neg hnot, if_pos hc]

/-- Feeding fewer frames than the commit point leaves everything but the
calibration buffer unchanged. -/
theorem feedFrames_collect (n : ℕ) : ∀ (s : ServiceState) (rms : ℚ),
    s.status = .active → s.warmupFramesRemaining = 0 → s.isCalibrating = true →
    s.calibrationBuffer.length + n < 60 →
    feedFrames s n rms =
      { s with calibrationBuffer := s.calibrationBuffer ++ List.replicate n rms } := by
  induction n with
  | zero =>
    intro s rms hs hw hc hl
    cases s
    simp_all [feedFrames_zero]
  | succ n ih =>
    intro s rms hs hw hc hl
    rw [feedFrames_succ]
    rw [loopStep_collect s rms hs hw hc (by omega)]
    rw [ih _ rms (by simp [hs]) (by simp [hw]) (by simp [hc]) (by simp; omega)]
    simp [List.replicate_succ, List.append_assoc]

/-- The 60th collected sample commits the averaged baseline. -/
theorem loopStep_commit (s : ServiceState) (rms : ℚ)
    (hs : s.status = .active) (hw : s.warmupFramesRemaining = 0)
    (hc : s.isCalibrating = true) (hl : s.calibrationBuffer.length = 59) :
    loopStep s rms = { s with isCalibrating := false
                              baselineRms := (s.calibrationBuffer ++ [rms]).foldl (· + ·) 0 /
                                (((s.calibrationBuffer ++ [rms]).length : ℕ) : ℚ)
                              baselineDb := s.calibrationTargetDb
                              calibrationBuffer := s.calibrationBuffer ++ [rms] } := by
  have hyes : ((3000 : ℚ) / NOISE_ANALYSIS_FRAME_MS ≤
      (((s.calibrationBuffer ++ [rms]).length : ℕ) : ℚ)) := by
    rw [show (3000 : ℚ) / NOISE_ANALYSIS_FRAME_MS = 60 by
      norm_num [NOISE_ANALYSIS_FRAME_MS]]
    have h60 : (s.calibrationBuffer ++ [rms]).length = 60 := by
      simp only [List.length_append, List.length_cons, List.length_nil]
      omega
    rw [h60]
    norm_num
  simp only [loopStep, processCalibrationFrame]
  rw [if_neg (by simp [hs]), if_neg (by omega), if_pos hc, if_pos hyes, if_pos hc]

theorem foldl_add_replicate {α : Type} [CommSemiring α] (n : ℕ) : ∀ (acc a : α),
    (List.replicate n a).foldl (· + ·) acc = acc + n * a := by
  induction n with
  | zero => intro acc a; simp
  | succ n ih =>
    intro acc a
    rw [List.replicate_succ, List.foldl_cons, ih]
    push_cast
    ring

/-- A dBFS level in the physical range maps to an amplitude in
`[1e-5, 1]` under `10 ^ (db/20)`. -/
theorem rpow_div20_bounds {db : ℝ} (h1 : -100 ≤ db) (h2 : db ≤ 0) :
    (1e-5 : ℝ) ≤ (10 : ℝ) ^ (db / 20) ∧ (10 : ℝ) ^ (db / 20) ≤ 1 := by
  have hA : (1e-5 : ℝ) = (10 : ℝ) ^ ((-5 : ℝ)) := by
    rw [show ((-5 : ℝ)) = ((-5 : ℤ) : ℝ) by norm_num, Real.rpow_intCast]
    norm_num
  constructor
  · rw [hA]
    exact (Real.rpow_le_rpow_left_iff (by norm_num)).mpr (by linarith)
  · have h := (Real.rpow_le_rpow_left_iff (x := 10) (by norm_num)).mpr
      (show db / 20 ≤ 0 by linarith)
    simpa [Real.rpow_zero] using h

/-- An amplitude in `[1e-5, 1]` maps back to a level in `[-100, 0]`
under `20 * log10`. -/
theorem logb_scaled_bounds {q : ℝ} (h1 : (1e-5 : ℝ) ≤ q) (h2 : q ≤ 1) :
    -100 ≤ 20 * Real.logb 10 q ∧ 20 * Real.logb 10 q ≤ 0 := by
  have hA : Real.logb 10 (1e-5 : ℝ) = -5 := by
    rw [show (1e-5 : ℝ) = (10 : ℝ) ^ ((-5 : ℝ)) by
      rw [show ((-5 : ℝ)) = ((-5 : ℤ) : ℝ) by norm_num, Real.rpow_intCast]; norm_num]
    exact Real.logb_rpow (by norm_num) (by norm_num)
  constructor
  · have hle : Real.logb 10 (1e-5 : ℝ) ≤ Real.logb 10 q :=
      Real.logb_le_logb_of_le (by norm_num) (by norm_num) h1
    rw [hA] at hle
    linarith
  · have h := Real.logb_nonpos (b := 10) (by norm_num) (by linarith) h2
    linarith

/-- The quantile path stays inside the physical range whenever its
inputs are levels in `[-100, 0]` and `p ∈ [0, 1]`. -/
theorem quantile_in_range (arr : List ℝ) (p : ℝ)
    (hmem : ∀ x ∈ arr, -100 ≤ x ∧ x ≤ 0) (hp0 : 0 ≤ p) (hp1 : p ≤ 1) :
    -100 ≤ computeQuantileFromDbfsArray arr p ∧
      computeQuantileFromDbfsArray arr p ≤ 0 := by
  by_cases harr : arr = []
  · simp [computeQuantileFromDbfsArray, harr, DBFS_MIN_POSSIBLE]
  · simp only [computeQuantileFromDbfsArray, if_neg harr]
    set R := (arr.map fun db => (10 : ℝ) ^ (db / 20)).mergeSort (fun a b => a ≤ b) with hR
    set idx := ((R.length : ℝ) - 1) * p with hidx
    set w := idx - ((⌊idx⌋ : ℤ) : ℝ) with hw
    have hlenR : R.length = arr.length := by
      rw [hR, List.length_mergeSort, List.length_map]
    have hn : 0 < arr.length := List.length_pos.mpr harr
    have hmemR : ∀ y ∈ R, (1e-5 : ℝ) ≤ y ∧ y ≤ 1 := by
      intro y hy
      have hyL : y ∈ arr.map fun db => (10 : ℝ) ^ (db / 20) :=
        ((List.mergeSort_perm _ _).mem_iff).mp hy
      obtain ⟨db, hdb, rfl⟩ := List.mem_map.mp hyL
      exact rpow_div20_bounds (hmem db hdb).1 (hmem db hdb).2
    have hlen1 : (1 : ℝ) ≤ (R.length : ℝ) := by
      rw [hlenR]
      exact_mod_cast hn
    have hidx0 : 0 ≤ idx := mul_nonneg (by linarith) hp0
    have hidxn : idx ≤ (R.length : ℝ) - 1 :=
      mul_le_of_le_one_right (by linarith) hp1
    have hlo0 : 0 ≤ ⌊idx⌋ := Int.floor_nonneg.mpr hidx0
    have hloRn : ⌊idx⌋ ≤ (R.length : ℤ) - 1 := by
      have h := Int.floor_le_floor hidxn
      rwa [show ((R.length : ℝ) - 1) = (((R.length : ℤ) - 1 : ℤ) : ℝ) by push_cast; ring,
        Int.floor_intCast] at h
    have hlo : ⌊idx⌋.toNat < R.length := by omega
    have hhi0 : 0 ≤ ⌈idx⌉ := Int.ceil_nonneg hidx0
    have hhiRn : ⌈idx⌉ ≤ (R.length : ℤ) - 1 := by
      rw [Int.ceil_le]
      push_cast
      linarith
    have hhi : ⌈idx⌉.toNat < R.length := by omega
    have hblo : (1e-5 : ℝ) ≤ R.getD ⌊idx⌋.toNat 0 ∧ R.getD ⌊idx⌋.toNat 0 ≤ 1 := by
      rw [List.getD_eq_getElem R 0 hlo]
      exact hmemR _ (List.getElem_mem hlo)
    have hbhi : (1e-5 : ℝ) ≤ R.getD ⌈idx⌉.toNat 0 ∧ R.getD ⌈idx⌉.toNat 0 ≤ 1 := by
      rw [List.getD_eq_getElem R 0 hhi]
      exact hmemR _ (List.getElem_mem hhi)
    have hw0 : 0 ≤ w := by
      have h := Int.floor_le idx
      rw [hw]
      linarith
    have hw1 : w ≤ 1 := by
      have h := Int.lt_floor_add_one idx
      rw [hw]
      linarith
    have hq : (1e-5 : ℝ) ≤ (if ⌊idx⌋ = ⌈idx⌉ then R.getD ⌊idx⌋.toNat 0
        else R.getD ⌊idx⌋.toNat 0 * (1 - w) + R.getD ⌈idx⌉.toNat 0 * w) ∧
        (if ⌊idx⌋ = ⌈idx⌉ then R.getD ⌊idx⌋.toNat 0
        else R.getD ⌊idx⌋.toNat 0 * (1 - w) + R.getD ⌈idx⌉.toNat 0 * w) ≤ 1 := by
      split
      · exact hblo
      · constructor
        · calc (1e-5 : ℝ) = 1e-5 * (1 - w) + 1e-5 * w := by ring
            _ ≤ R.getD ⌊idx⌋.toNat 0 * (1 - w) + R.getD ⌈idx⌉.toNat 0 * w :=
              add_le_add (mul_le_mul_of_nonneg_right hblo.1 (by linarith))
                (mul_le_mul_of_nonneg_right hbhi.1 hw0)
        · calc R.getD ⌊idx⌋.toNat 0 * (1 - w) + R.getD ⌈idx⌉.toNat 0 * w
              ≤ 1 * (1 - w) + 1 * w :=
              add_le_add (mul_le_mul_of_nonneg_right hblo.2 (by linarith))
                (mul_le_mul_of_nonneg_right hbhi.2 hw0)
            _ = 1 := by ring
    rw [max_eq_left (le_trans (by norm_num) hq.1)]
    exact logb_scaled_bounds hq.1 hq.2

/-- The energy-average path is clamped into the physical range for every
input array. -/
theorem avg_in_range (arr : List ℝ) :
    -100 ≤ computeAvgDbfsFromDbfsArray arr ∧ computeAvgDbfsFromDbfsArray arr ≤ 0 := by
  by_cases harr : arr = []
  · simp [computeAvgDbfsFromDbfsArray, harr, DBFS_MIN_POSSIBLE]
  · simp only [computeAvgDbfsFromDbfsArray, if_neg harr, DBFS_MIN_POSSIBLE,
      DBFS_MAX_POSSIBLE]
    constructor
    · exact le_max_left _ _
    · exact max_le (by norm_num) (min_le_left _ _)

theorem if_lt_abs_eq_max (p v : ℝ) : (if p < v then v else p) = max p v := by
  rcases le_or_lt v p with h | h
  · rw [if_neg (not_lt.mpr h), max_eq_left h]
  · rw [if_pos h, max_eq_right h.le]

theorem rmsPeak_fold_fst (data : List ℝ) : ∀ s p : ℝ,
    (data.foldl (fun (a : ℝ × ℝ) v => (a.1 + v * v, if a.2 < |v| then |v| else a.2))
        (s, p)).1 = s + (data.map (fun v => v * v)).sum := by
  induction data with
  | nil => intro s p; simp
  | cons x xs ih =>
    intro s p
    simp only [List.foldl_cons, List.map_cons, List.sum_cons]
    rw [ih]
    ring

theorem rmsPeak_fold_snd (data : List ℝ) : ∀ s p : ℝ,
    (data.foldl (fun (a : ℝ × ℝ) v => (a.1 + v * v, if a.2 < |v| then |v| else a.2))
        (s, p)).2 = data.foldl (fun a v => max a |v|) p := by
  induction data with
  | nil => intro s p; simp
  | cons x xs ih =>
    intro s p
    simp only [List.foldl_cons]
    rw [ih, if_lt_abs_eq_max]

theorem le_foldl_max_abs (data : List ℝ) : ∀ p : ℝ,
    p ≤ data.foldl (fun a v => max a |v|) p := by
  induction data with
  | nil => intro p; simp
  | cons x xs ih =>
    intro p
    simp only [List.foldl_cons]
    exact le_trans (le_max_left _ _) (ih _)

theorem foldl_max_abs_mem_le (data : List ℝ) : ∀ (p v : ℝ), v ∈ data →
    |v| ≤ data.foldl (fun a w => max a |w|) p := by
  induction data with
  | nil => intro p v hv; simp at hv
  | cons x xs ih =>
    intro p v hv
    simp only [List.foldl_cons]
    rcases List.mem_cons.mp hv with h | h
    · subst h
      exact le_trans (le_max_right _ _) (le_foldl_max_abs xs _)
    · exact ih _ v h

theorem foldl_max_abs_attained (data : List ℝ) : ∀ p : ℝ,
    data.foldl (fun a v => max a |v|) p = p ∨
      ∃ v ∈ data, data.foldl (fun a v => max a |v|) p = |v| := by
  induction data with
  | nil => intro p; exact Or.inl rfl
  | cons x xs ih =>
    intro p
    simp only [List.foldl_cons]
    rcases ih (max p |x|) with h | ⟨v, hv, he⟩
    · rw [h]
      rcases le_or_lt |x| p with hc | hc
      · exact Or.inl (max_eq_left hc)
      · exact Or.inr ⟨x, List.mem_cons_self _ _, max_eq_right hc.le⟩
    · exact Or.inr ⟨v, List.mem_cons_of_mem _ hv, he⟩

theorem clamp01_mono {a b : ℚ} (h : a ≤ b) : clamp01 a ≤ clamp01 b :=
  max_le_max le_rfl (min_le_min le_rfl h)

theorem jsRound_mono {a b : ℚ} (h : a ≤ b) : jsRound a ≤ jsRound b :=
  Int.floor_le_floor (by linarith)

/-- The final score is antitone in the weighted total penalty. -/
theorem score_antitone (raw1 raw2 : NoiseSliceRawStats) (durationMs : ℚ)
    (h : totalPenalty raw1 durationMs ≤ totalPenalty raw2 durationMs) :
    (computeNoiseSliceScore raw2 durationMs).1 ≤
      (computeNoiseSliceScore raw1 durationMs).1 := by
  simp only [computeNoiseSliceScore]
  have h1 : 100 * (1 - totalPenalty raw2 durationMs) * 10 ≤
      100 * (1 - totalPenalty raw1 durationMs) * 10 := by linarith
  have h2 : (jsRound (100 * (1 - totalPenalty raw2 durationMs) * 10) : ℚ) ≤
      (jsRound (100 * (1 - totalPenalty raw1 durationMs) * 10) : ℚ) := by
    exact_mod_cast jsRound_mono h1
  exact max_le_max le_rfl (min_le_min le_rfl (by linarith))

/-! ## Claim theorems -/

/-- C1: with the compiled-in threshold -50 dBFS, raw stats
`p50Dbfs = -44`, `overRatioDbfs = 0.15`, `segmentCount = 3` and an
effective duration of one minute (`sampledDurationMs = 60000`), the
sustained penalty is `1`, the time penalty is `0.5`, the segment penalty
is `0.5`, the weighted total penalty is `0.7`, and the returned score is
exactly `30.0`. -/
theorem c1_concrete_score_thirty :
    let raw : NoiseSliceRawStats :=
      { avgDbfs := -44, maxDbfs := -44, p50Dbfs := -44, p95Dbfs := -44
        overRatioDbfs := 0.15, segmentCount := 3, sampledDurationMs := 60000
        gapCount := 0, maxGapMs := 0 }
    sustainedPenalty raw = 1 ∧ timePenalty raw = 0.5 ∧
    segmentPenalty raw 60000 = 0.5 ∧ totalPenalty raw 60000 = 0.7 ∧
    (computeNoiseSliceScore raw 60000).1 = 30 := by
  refine ⟨?_, ?_, ?_, ?_, ?_⟩ <;>
    norm_num [sustainedPenalty, timePenalty, segmentPenalty, totalPenalty,
      computeNoiseSliceScore, scoreMinutes, effectiveDurationMs, clamp01, jsRound,
      NOISE_SCORE_THRESHOLD_DBFS, NOISE_SCORE_MAX_SEGMENTS_PER_MIN, min_def, max_def]

/-- C5: for every current stored settings object and every partial
settings object supplied by the caller, the settings produced by
`saveNoiseControlSettings` (the value that is both stored and broadcast)
have the five fixed fields pinned to the engine constants
`(30, 50, -50, 500, 6)`, while the caller-mutable fields take the
caller-supplied values (falling back to the current ones when not
supplied). -/
theorem c5_settings_pinned (current : NoiseControlSettings)
    (settings : PartialNoiseControlSettings) :
    (saveNoiseControlSettings current settings).sliceSec = 30 ∧
    (saveNoiseControlSettings current settings).frameMs = 50 ∧
    (saveNoiseControlSettings current settings).scoreThresholdDbfs = -50 ∧
    (saveNoiseControlSettings current settings).segmentMergeGapMs = 500 ∧
    (saveNoiseControlSettings current settings).maxSegmentsPerMin = 6 ∧
    (saveNoiseControlSettings current settings).baselineDb =
      settings.baselineDb.getD current.baselineDb ∧
    (saveNoiseControlSettings current settings).baselineRms =
      (match settings.baselineRms with
       | some v => some v
       | none => current.baselineRms) ∧
    (saveNoiseControlSettings current settings).showRealtimeDb =
      settings.showRealtimeDb.getD current.showRealtimeDb ∧
    (saveNoiseControlSettings current settings).alertSoundEnabled =
      settings.alertSoundEnabled.getD current.alertSoundEnabled ∧
    (saveNoiseControlSettings current settings).maxLevelDb =
      settings.maxLevelDb.getD current.maxLevelDb := by
  refine ⟨rfl, rfl, rfl, rfl, rfl, rfl, rfl, rfl, rfl, rfl⟩

/-- C5 witness: a caller that tries to override the score threshold and
the slice length still gets the pinned constants back, while the
baseline it supplies is honoured. -/
theorem c5_settings_pinned_witness :
    (saveNoiseControlSettings DEFAULT_SETTINGS
        { baselineDb := some 45, sliceSec := some 999,
          scoreThresholdDbfs := some 0 }).sliceSec = 30 ∧
    (saveNoiseControlSettings DEFAULT_SETTINGS
        { baselineDb := some 45, sliceSec := some 999,
          scoreThresholdDbfs := some 0 }).scoreThresholdDbfs = -50 ∧
    (saveNoiseControlSettings DEFAULT_SETTINGS
        { baselineDb := some 45, sliceSec := some 999,
          scoreThresholdDbfs := some 0 }).baselineDb = 45 :=
  ⟨(c5_settings_pinned DEFAULT_SETTINGS _).1,
   (c5_settings_pinned DEFAULT_SETTINGS _).2.2.1,
   (c5_settings_pinned DEFAULT_SETTINGS
     { baselineDb := some 45, sliceSec := some 999,
       scoreThresholdDbfs := some 0 }).2.2.2.2.2.1⟩

/-- C3 counterexample: `saveSlice` removes at most one entry per write
(`filteredList.shift()` runs once), so from a prior stored list of 1001
fresh entries the write leaves 1001 entries — the stored count does
exceed 1000, refuting the claim for arbitrary prior lists. -/
theorem c3_counterexample :
    1000 < (saveSlice (List.replicate 1001 ⟨0, 0, 0, 100⟩) ⟨0, 0, 0, 100⟩ 0).length := by
  have h : (List.replicate 1001 (⟨0, 0, 0, 100⟩ : StoredSliceSummary)) ++ [⟨0, 0, 0, 100⟩]
      = List.replicate (1001 + 1) ⟨0, 0, 0, 100⟩ := (List.replicate_succ' _ _).symm
  have hfil : (List.replicate (1001 + 1) (⟨0, 0, 0, 100⟩ : StoredSliceSummary)).filter
      (fun s => (0 : ℚ) - s.endTs < retentionMs) =
      List.replicate (1001 + 1) ⟨0, 0, 0, 100⟩ := by
    rw [List.filter_replicate, if_pos]
    norm_num [retentionMs]
  simp only [saveSlice, h, hfil, List.length_replicate, List.tail_replicate]
  norm_num

/-- C3 amended: provided the prior stored list holds at most 1000
entries (the bound the write path itself maintains when every write goes
through it, starting from an empty store), after `saveSlice` every
retained entry's end-time is strictly less than 14 days old and the
stored count is at most 1000; the overflow case drops exactly the oldest
entry. -/
theorem c3_retention_and_cap (stored : List StoredSliceSummary)
    (slice : StoredSliceSummary) (now : ℚ) (hlen : stored.length ≤ 1000) :
    (∀ s ∈ saveSlice stored slice now, now - s.endTs < retentionMs) ∧
    (saveSlice stored slice now).length ≤ 1000 := by
  unfold saveSlice
  constructor
  · intro s hs
    have hmem : s ∈ (stored ++ [slice]).filter (fun s => now - s.endTs < retentionMs) := by
      by_cases hc : 1000 <
          ((stored ++ [slice]).filter (fun s => now - s.endTs < retentionMs)).length
      · simp only [if_pos hc] at hs
        exact (List.tail_sublist _).subset hs
      · simpa only [if_neg hc] using hs
    have := (List.mem_filter.mp hmem).2
    simpa using this
  · have hfl : ((stored ++ [slice]).filter (fun s => now - s.endTs < retentionMs)).length
        ≤ 1001 := by
      calc ((stored ++ [slice]).filter (fun s => now - s.endTs < retentionMs)).length
          ≤ (stored ++ [slice]).length := List.length_filter_le _ _
        _ = stored.length + 1 := by simp
        _ ≤ 1001 := by omega
    by_cases hc : 1000 <
        ((stored ++ [slice]).filter (fun s => now - s.endTs < retentionMs)).length
    · simp only [if_pos hc, List.length_tail]
      omega
    · simp only [if_neg hc]
      omega

/-- C3 witness: instantiation of the amended theorem at an empty prior
store. -/
theorem c3_retention_and_cap_witness :
    ([] : List StoredSliceSummary).length ≤ 1000 ∧
    ((∀ s ∈ saveSlice [] ⟨0, 0, 0, 100⟩ 0, (0 : ℚ) - s.endTs < retentionMs) ∧
     (saveSlice [] ⟨0, 0, 0, 100⟩ 0).length ≤ 1000) :=
  ⟨by simp, c3_retention_and_cap [] ⟨0, 0, 0, 100⟩ 0 (by simp)⟩

/-- C4 counterexample: `stop` does not clear the calibration state.
Start the service, let the 10 warm-up frames pass, arm a calibration to
70 dB, collect 59 of the 60 required samples, stop.  At that point the
collection is still armed (`isCalibrating = true`) and the previous
baseline (40 dB, amplitude 1/1000) is in effect — but after a new
`start` the interrupted collection resumes with its stale samples: the
11th frame (10 warm-up + 1) as the 60th sample commits a new baseline
amplitude 1 bound to 70 dB.  The interrupted collection therefore can
later complete using its stale samples, refuting the claim. -/
theorem c4_counterexample :
    let s5 := stopService (feedFrames
      (calibrate (feedFrames (startService initialServiceState) 10 1) 70) 59 1)
    let s8 := feedFrames (startService s5) 11 1
    s5.isCalibrating = true ∧ s5.baselineDb = 40 ∧ s5.baselineRms = 1/1000 ∧
    s8.isCalibrating = false ∧ s8.baselineDb = 70 ∧ s8.baselineRms = 1 := by
  have h1 : startService initialServiceState = ⟨.active, 10, 40, 1/1000, false, 0, []⟩ := by
    unfold startService initialServiceState
    rw [if_neg (by simp)]
  have h2 : feedFrames (startService initialServiceState) 10 1 =
      ⟨.active, 0, 40, 1/1000, false, 0, []⟩ := by
    rw [h1, feedFrames_warmup 10 _ 1 rfl rfl]
  have h3 : calibrate (feedFrames (startService initialServiceState) 10 1) 70 =
      ⟨.active, 0, 40, 1/1000, true, 70, []⟩ := by
    rw [h2]
    unfold calibrate
    rw [if_neg (by simp)]
  have h4 : feedFrames (calibrate (feedFrames (startService initialServiceState) 10 1) 70)
      59 1 = ⟨.active, 0, 40, 1/1000, true, 70, List.replicate 59 1⟩ := by
    rw [h3, feedFrames_collect 59 _ 1 rfl rfl rfl (by simp)]
    simp
  have h5 : stopService (feedFrames
      (calibrate (feedFrames (startService initialServiceState) 10 1) 70) 59 1) =
      ⟨.paused, 0, 40, 1/1000, true, 70, List.replicate 59 1⟩ := by
    rw [h4]
    unfold stopService
    rw [if_neg (by simp)]
  have h6 : startService
      (⟨.paused, 0, 40, 1/1000, true, 70, List.replicate 59 1⟩ : ServiceState) =
      ⟨.active, 10, 40, 1/1000, true, 70, List.replicate 59 1⟩ := by
    unfold startService
    rw [if_neg (by simp)]
  have h7 : feedFrames
      (⟨.active, 10, 40, 1/1000, true, 70, List.replicate 59 1⟩ : ServiceState) 10 1 =
      ⟨.active, 0, 40, 1/1000, true, 70, List.replicate 59 1⟩ := by
    rw [feedFrames_warmup 10 _ 1 rfl rfl]
  have h8 : loopStep
      (⟨.active, 0, 40, 1/1000, true, 70, List.replicate 59 1⟩ : ServiceState) 1 =
      ⟨.active, 0, 70, 1, false, 70, List.replicate 60 1⟩ := by
    rw [loopStep_commit _ 1 rfl rfl rfl (by simp)]
    have h60 : List.replicate 59 (1 : ℚ) ++ [1] = List.replicate 60 1 :=
      (List.replicate_succ' 59 1).symm
    rw [h60, foldl_add_replicate]
    norm_num
  have h9 : feedFrames (startService (⟨.paused, 0, 40, 1/1000, true, 70,
      List.replicate 59 1⟩ : ServiceState)) 11 1 =
      ⟨.active, 0, 70, 1, false, 70, List.replicate 60 1⟩ := by
    rw [h6, show (11 : ℕ) = 10 + 1 from rfl, feedFrames_succ_last, h7, h8]
  refine ⟨by rw [h5], by rw [h5], by rw [h5], ?_, ?_, ?_⟩ <;> rw [h5, h9]

/-- C4 amended: `stop` itself commits nothing — it leaves the baseline
level, baseline amplitude and the whole calibration state (armed flag
and buffer) untouched — and while the service is stopped no frame is
processed, so no commit can happen until a later `start`; the in-progress
collection is however not discarded (see the counterexample). -/
theorem c4_stop_no_partial_commit (s : ServiceState) (rms : ℚ) :
    (stopService s).baselineDb = s.baselineDb ∧
    (stopService s).baselineRms = s.baselineRms ∧
    (stopService s).isCalibrating = s.isCalibrating ∧
    (stopService s).calibrationBuffer = s.calibrationBuffer ∧
    loopStep (stopService s) rms = stopService s := by
  refine ⟨?_, ?_, ?_, ?_, ?_⟩
  · unfold stopService; split <;> rfl
  · unfold stopService; split <;> rfl
  · unfold stopService; split <;> rfl
  · unfold stopService; split <;> rfl
  · by_cases hp : s.status = NoiseStreamStatus.paused <;>
      simp [stopService, loopStep, hp]

/-- C4 witness: instantiation of the stop-commits-nothing theorem at the
initial service state. -/
theorem c4_stop_no_partial_commit_witness :
    (stopService initialServiceState).baselineDb = initialServiceState.baselineDb ∧
    (stopService initialServiceState).baselineRms = initialServiceState.baselineRms ∧
    (stopService initialServiceState).isCalibrating = initialServiceState.isCalibrating ∧
    (stopService initialServiceState).calibrationBuffer =
      initialServiceState.calibrationBuffer ∧
    loopStep (stopService initialServiceState) 1 = stopService initialServiceState :=
  c4_stop_no_partial_commit initialServiceState 1

/-- C2 counterexample: the merge test is strict (`timeSinceLast >
NOISE_SCORE_SEGMENT_MERGE_GAP_MS`), so two above-threshold bursts whose
wall-clock separation is exactly 500 ms are merged into ONE segment,
while the claim predicts two.  Run: burst at t=1000 (dbfs -40), quiet
frame at t=1050 (dbfs -80, records the segment end), burst at t=1550 —
separation exactly 500 ms — yields `segmentCount = 1`, not 2. -/
theorem c2_counterexample :
    (processFrames [(1000, -40), (1050, -80), (1550, -40)]).segmentCount = 1 ∧
    (processFrames [(1000, -40), (1050, -80), (1550, -40)]).segmentCount ≠ 2 := by
  have h : (processFrames [(1000, -40), (1050, -80), (1550, -40)]).segmentCount = 1 := by
    norm_num [processFrames, processFrameStep, resetSlice, NOISE_ANALYSIS_FRAME_MS,
      NOISE_SCORE_THRESHOLD_DBFS, INVALID_DBFS_THRESHOLD, NOISE_SCORE_SEGMENT_MERGE_GAP_MS]
  exact ⟨h, by rw [h]; norm_num⟩

/-- C2 amended: on a below-to-above transition of a valid frame the
segment count increments if and only if it is the first transition of
the window (`lastSegmentEndTs = 0`) or the wall-clock gap since the
previous above-to-below transition STRICTLY exceeds 500 ms; hence bursts
separated by at most 500 ms (here 499 ms, and exactly 500 ms in the
counterexample) count as one segment and bursts separated by more than
500 ms (here 501 ms) count as two. -/
theorem c2_segment_merge :
    (∀ (s : SliceState) (frameTs dbfs : ℚ),
        NOISE_SCORE_THRESHOLD_DBFS < dbfs → s.isAboveThreshold = false →
        (processFrameStep s frameTs dbfs).segmentCount =
          (if s.lastSegmentEndTs = 0 ∨
              NOISE_SCORE_SEGMENT_MERGE_GAP_MS < frameTs - s.lastSegmentEndTs
           then s.segmentCount + 1 else s.segmentCount)) ∧
    (processFrames [(1000, -40), (1050, -80), (1549, -40)]).segmentCount = 1 ∧
    (processFrames [(1000, -40), (1050, -80), (1551, -40)]).segmentCount = 2 := by
  refine ⟨?_, ?_, ?_⟩
  · intro s frameTs dbfs habove hbelow
    have hvalid : INVALID_DBFS_THRESHOLD ≤ dbfs := by
      unfold INVALID_DBFS_THRESHOLD NOISE_SCORE_THRESHOLD_DBFS at *
      linarith
    simp only [processFrameStep, eq_true hvalid, eq_true habove, if_true, hbelow]
    split <;> simp_all [apply_ite]
  · norm_num [processFrames, processFrameStep, resetSlice, NOISE_ANALYSIS_FRAME_MS,
      NOISE_SCORE_THRESHOLD_DBFS, INVALID_DBFS_THRESHOLD, NOISE_SCORE_SEGMENT_MERGE_GAP_MS]
  · norm_num [processFrames, processFrameStep, resetSlice, NOISE_ANALYSIS_FRAME_MS,
      NOISE_SCORE_THRESHOLD_DBFS, INVALID_DBFS_THRESHOLD, NOISE_SCORE_SEGMENT_MERGE_GAP_MS]

/-- C2 witness: instantiation of the transition rule at a fresh slice
and an above-threshold frame. -/
theorem c2_segment_merge_witness :
    NOISE_SCORE_THRESHOLD_DBFS < (0 : ℚ) ∧ resetSlice.isAboveThreshold = false ∧
    (processFrameStep resetSlice 1000 0).segmentCount =
      (if resetSlice.lastSegmentEndTs = 0 ∨
          NOISE_SCORE_SEGMENT_MERGE_GAP_MS < 1000 - resetSlice.lastSegmentEndTs
       then resetSlice.segmentCount + 1 else resetSlice.segmentCount) :=
  ⟨by norm_num [NOISE_SCORE_THRESHOLD_DBFS], rfl,
   c2_segment_merge.1 resetSlice 1000 0 (by norm_num [NOISE_SCORE_THRESHOLD_DBFS]) rfl⟩

/-- C8: whenever the elapsed time since the previous processed frame
exceeds `max(1000 ms, 5 × 50 ms)`, the gap counter increments by one,
the maximum-gap tracker absorbs the elapsed time, and a valid post-gap
frame contributes the nominal 50 ms to the sampled duration instead of
the true elapsed gap; concretely, frames at t=0 and t=1200 (a 1200 ms
gap) leave `gapCount = 1`, `maxGapMs = 1200` and a sampled duration of
100 ms (50 ms per frame), not 1250 ms. -/
theorem c8_gap_detection :
    (∀ (s : SliceState) (last frameTs dbfs : ℚ),
        s.lastProcessedFrameTs = some last →
        max 1000 (NOISE_ANALYSIS_FRAME_MS * 5) < frameTs - last →
        INVALID_DBFS_THRESHOLD ≤ dbfs →
        (processFrameStep s frameTs dbfs).gapCount = s.gapCount + 1 ∧
        (processFrameStep s frameTs dbfs).maxGapMs = max s.maxGapMs (frameTs - last) ∧
        (processFrameStep s frameTs dbfs).sliceSampledDuration =
          s.sliceSampledDuration + NOISE_ANALYSIS_FRAME_MS) ∧
    ((processFrames [(0, -40), (1200, -40)]).gapCount = 1 ∧
     (processFrames [(0, -40), (1200, -40)]).maxGapMs = 1200 ∧
     (processFrames [(0, -40), (1200, -40)]).sliceSampledDuration = 100) := by
  constructor
  · intro s last frameTs dbfs hlast hgap hvalid
    simp only [processFrameStep, hlast, eq_true hvalid, if_true]
    rw [if_pos hgap]
    refine ⟨?_, ?_, ?_⟩ <;> split <;> split <;> simp_all [apply_ite]
  · refine ⟨?_, ?_, ?_⟩ <;>
      norm_num [processFrames, processFrameStep, resetSlice, NOISE_ANALYSIS_FRAME_MS,
        NOISE_SCORE_THRESHOLD_DBFS, INVALID_DBFS_THRESHOLD,
        NOISE_SCORE_SEGMENT_MERGE_GAP_MS]

/-- C8 witness: instantiation of the gap rule at a window that has seen
one frame at t=0 and now processes a valid frame at t=2000. -/
theorem c8_gap_detection_witness :
    (⟨[], 0, 0, 0, false, 0, 0, some 0, 0, 0⟩ : SliceState).lastProcessedFrameTs = some 0 ∧
    max 1000 (NOISE_ANALYSIS_FRAME_MS * 5) < (2000 : ℚ) - 0 ∧
    INVALID_DBFS_THRESHOLD ≤ (-40 : ℚ) ∧
    ((processFrameStep ⟨[], 0, 0, 0, false, 0, 0, some 0, 0, 0⟩ 2000 (-40)).gapCount =
        (⟨[], 0, 0, 0, false, 0, 0, some 0, 0, 0⟩ : SliceState).gapCount + 1 ∧
      (processFrameStep ⟨[], 0, 0, 0, false, 0, 0, some 0, 0, 0⟩ 2000 (-40)).maxGapMs =
        max (⟨[], 0, 0, 0, false, 0, 0, some 0, 0, 0⟩ : SliceState).maxGapMs ((2000 : ℚ) - 0) ∧
      (processFrameStep ⟨[], 0, 0, 0, false, 0, 0, some 0, 0, 0⟩ 2000 (-40)).sliceSampledDuration =
        (⟨[], 0, 0, 0, false, 0, 0, some 0, 0, 0⟩ : SliceState).sliceSampledDuration +
          NOISE_ANALYSIS_FRAME_MS) :=
  ⟨rfl, by norm_num [NOISE_ANALYSIS_FRAME_MS], by norm_num [INVALID_DBFS_THRESHOLD],
   c8_gap_detection.1 ⟨[], 0, 0, 0, false, 0, 0, some 0, 0, 0⟩ 0 2000 (-40) rfl
     (by norm_num [NOISE_ANALYSIS_FRAME_MS]) (by norm_num [INVALID_DBFS_THRESHOLD])⟩

/-- C7: the returned score is monotonically non-increasing in each
scoring dimension taken individually — raising `p50Dbfs`,
`overRatioDbfs` or `segmentCount` while every other field and the
duration stay fixed never increases the score. -/
theorem c7_score_monotone :
    (∀ (raw : NoiseSliceRawStats) (p durationMs : ℚ), raw.p50Dbfs ≤ p →
        (computeNoiseSliceScore { raw with p50Dbfs := p } durationMs).1 ≤
          (computeNoiseSliceScore raw durationMs).1) ∧
    (∀ (raw : NoiseSliceRawStats) (r durationMs : ℚ), raw.overRatioDbfs ≤ r →
        (computeNoiseSliceScore { raw with overRatioDbfs := r } durationMs).1 ≤
          (computeNoiseSliceScore raw durationMs).1) ∧
    (∀ (raw : NoiseSliceRawStats) (c durationMs : ℚ), raw.segmentCount ≤ c →
        (computeNoiseSliceScore { raw with segmentCount := c } durationMs).1 ≤
          (computeNoiseSliceScore raw durationMs).1) := by
  refine ⟨?_, ?_, ?_⟩
  · intro raw p durationMs h
    apply score_antitone
    unfold totalPenalty
    have hs : sustainedPenalty raw ≤ sustainedPenalty { raw with p50Dbfs := p } := by
      unfold sustainedPenalty
      apply clamp01_mono
      have hmx : max 0 (raw.p50Dbfs - NOISE_SCORE_THRESHOLD_DBFS) ≤
          max 0 (({ raw with p50Dbfs := p } : NoiseSliceRawStats).p50Dbfs -
            NOISE_SCORE_THRESHOLD_DBFS) :=
        max_le_max le_rfl (by dsimp only; linarith)
      linarith
    have ht : timePenalty { raw with p50Dbfs := p } = timePenalty raw := rfl
    have hg : segmentPenalty { raw with p50Dbfs := p } durationMs =
        segmentPenalty raw durationMs := rfl
    rw [ht, hg]
    linarith
  · intro raw r durationMs h
    apply score_antitone
    unfold totalPenalty
    have ht : timePenalty raw ≤ timePenalty { raw with overRatioDbfs := r } := by
      unfold timePenalty
      apply clamp01_mono
      dsimp only
      rw [div_le_div_iff_of_pos_right (by norm_num)]
      exact h
    have hs : sustainedPenalty { raw with overRatioDbfs := r } = sustainedPenalty raw := rfl
    have hg : segmentPenalty { raw with overRatioDbfs := r } durationMs =
        segmentPenalty raw durationMs := rfl
    rw [hs, hg]
    linarith
  · intro raw c durationMs h
    apply score_antitone
    unfold totalPenalty
    have hmin : 0 < scoreMinutes raw durationMs :=
      lt_of_lt_of_le (by norm_num) (le_max_left _ _)
    have hg : segmentPenalty raw durationMs ≤
        segmentPenalty { raw with segmentCount := c } durationMs := by
      unfold segmentPenalty
      apply clamp01_mono
      have hsm : scoreMinutes { raw with segmentCount := c } durationMs =
          scoreMinutes raw durationMs := rfl
      dsimp only
      rw [hsm, div_le_div_iff_of_pos_right (by norm_num [NOISE_SCORE_MAX_SEGMENTS_PER_MIN,
        max_def]), div_le_div_iff_of_pos_right hmin]
      exact h
    have hs : sustainedPenalty { raw with segmentCount := c } = sustainedPenalty raw := rfl
    have ht : timePenalty { raw with segmentCount := c } = timePenalty raw := rfl
    rw [hs, ht]
    linarith

/-- C7 witness: instantiation of the first monotonicity component at a
concrete quiet window whose median is raised from -60 to -44 dBFS. -/
theorem c7_score_monotone_witness :
    (⟨-60, -60, -60, -60, 0, 0, 60000, 0, 0⟩ : NoiseSliceRawStats).p50Dbfs ≤ -44 ∧
    (computeNoiseSliceScore
        { (⟨-60, -60, -60, -60, 0, 0, 60000, 0, 0⟩ : NoiseSliceRawStats) with
          p50Dbfs := -44 } 60000).1 ≤
      (computeNoiseSliceScore (⟨-60, -60, -60, -60, 0, 0, 60000, 0, 0⟩ :
        NoiseSliceRawStats) 60000).1 :=
  ⟨by norm_num,
   c7_score_monotone.1 ⟨-60, -60, -60, -60, 0, 0, 60000, 0, 0⟩ (-44) 60000 (by norm_num)⟩

/-- C6: for every finite array of levels (dBFS values in the physical
range `[-100, 0]`) and every `p ∈ [0, 1]`, both statistics paths — the
power-domain energy average and the amplitude-domain quantile — return a
value inside the physical range `[-100, 0]`; the `1e-12` epsilon floors
in the definitions guard the logarithm, and the energy average is in
range for arbitrary real inputs thanks to its explicit clamp. -/
theorem c6_stats_in_range (arr : List ℝ) (p : ℝ)
    (hmem : ∀ x ∈ arr, -100 ≤ x ∧ x ≤ 0) (hp0 : 0 ≤ p) (hp1 : p ≤ 1) :
    (-100 ≤ computeAvgDbfsFromDbfsArray arr ∧ computeAvgDbfsFromDbfsArray arr ≤ 0) ∧
    (-100 ≤ computeQuantileFromDbfsArray arr p ∧
      computeQuantileFromDbfsArray arr p ≤ 0) :=
  ⟨avg_in_range arr, quantile_in_range arr p hmem hp0 hp1⟩

/-- C6 witness: instantiation at the singleton array `[-100]` and
`p = 0`. -/
theorem c6_stats_in_range_witness :
    (∀ x ∈ [(-100 : ℝ)], -100 ≤ x ∧ x ≤ 0) ∧ (0 : ℝ) ≤ 0 ∧ (0 : ℝ) ≤ 1 ∧
    ((-100 ≤ computeAvgDbfsFromDbfsArray [(-100 : ℝ)] ∧
        computeAvgDbfsFromDbfsArray [(-100 : ℝ)] ≤ 0) ∧
      (-100 ≤ computeQuantileFromDbfsArray [(-100 : ℝ)] 0 ∧
        computeQuantileFromDbfsArray [(-100 : ℝ)] 0 ≤ 0)) :=
  ⟨by norm_num, le_refl 0, by norm_num,
   c6_stats_in_range [(-100 : ℝ)] 0 (by norm_num) (le_refl 0) (by norm_num)⟩

/-- C9 counterexample: the display mapping clamps to `[20, 100]`, so a
calibration that binds amplitude `1` to target level `150` does NOT
round-trip: a subsequent reading at amplitude `1` displays `100`, not
`150`.  The claim's "every target level d" therefore fails. -/
theorem c9_counterexample :
    calibrationAvgRms (List.replicate 60 1) = 1 ∧
    computeDisplayDbFromRms 1 (calibrationAvgRms (List.replicate 60 1)) 150 = 100 ∧
    (100 : ℝ) ≠ 150 := by
  have havg : calibrationAvgRms (List.replicate 60 (1 : ℝ)) = 1 := by
    unfold calibrationAvgRms
    rw [foldl_add_replicate, List.length_replicate]
    norm_num
  refine ⟨havg, ?_, by norm_num⟩
  rw [havg]
  simp only [computeDisplayDbFromRms]
  rw [show max (1e-12 : ℝ) 1 = 1 from max_eq_right (by norm_num)]
  rw [div_self (by norm_num : (1 : ℝ) ≠ 0), Real.logb_one]
  norm_num

/-- C9 amended: for every positive amplitude `r` and every target level
`d` inside the display range `[20, 100]`, a completed calibration that
collected a constant amplitude `r` (any positive number of samples)
stores baseline amplitude exactly `r`, and a subsequent reading at
amplitude `r` displays exactly `d` (no rounding involved: the amplitude
ratio is `1` and `log10 1 = 0`). -/
theorem c9_calibration_roundtrip (r d : ℝ) (n : ℕ) (hn : 0 < n) (hr : 0 < r)
    (hd1 : 20 ≤ d) (hd2 : d ≤ 100) :
    calibrationAvgRms (List.replicate n r) = r ∧
    computeDisplayDbFromRms r (calibrationAvgRms (List.replicate n r)) d = d := by
  have havg : calibrationAvgRms (List.replicate n r) = r := by
    unfold calibrationAvgRms
    rw [foldl_add_replicate, List.length_replicate, zero_add]
    exact mul_div_cancel_left₀ r (by exact_mod_cast hn.ne')
  refine ⟨havg, ?_⟩
  rw [havg]
  simp only [computeDisplayDbFromRms]
  have hpos : (0 : ℝ) < max (1e-12) r := lt_of_lt_of_le (by norm_num) (le_max_left _ _)
  rw [div_self hpos.ne', Real.logb_one, mul_zero, add_zero, min_eq_right hd2,
    max_eq_right hd1]

/-- C9 witness: instantiation of the round-trip at amplitude 1, target
40 dB, 60 collected samples. -/
theorem c9_calibration_roundtrip_witness :
    0 < 60 ∧ (0 : ℝ) < 1 ∧ (20 : ℝ) ≤ 40 ∧ (40 : ℝ) ≤ 100 ∧
    (calibrationAvgRms (List.replicate 60 (1 : ℝ)) = 1 ∧
      computeDisplayDbFromRms 1 (calibrationAvgRms (List.replicate 60 (1 : ℝ))) 40 = 40) :=
  ⟨by norm_num, by norm_num, by norm_num, by norm_num,
   c9_calibration_roundtrip 1 40 60 (by norm_num) (by norm_num) (by norm_num) (by norm_num)⟩

/-- C10: `computeRmsAndPeak` is total — on the empty block it returns
`(0, 0)` (the divisor is floored at 1, so no division by zero), for
every block the rms equals `sqrt(sum of squares / max(1, length))`, and
the peak is the maximum absolute sample value (an upper bound that is
attained on every non-empty block). -/
theorem c10_rms_peak_total :
    computeRmsAndPeak [] = (0, 0) ∧
    (∀ data : List ℝ, (computeRmsAndPeak data).1 =
        Real.sqrt ((data.map (fun v => v * v)).sum / max 1 (data.length : ℝ))) ∧
    (∀ (data : List ℝ) (v : ℝ), v ∈ data → |v| ≤ (computeRmsAndPeak data).2) ∧
    (∀ data : List ℝ, data ≠ [] → ∃ v ∈ data, (computeRmsAndPeak data).2 = |v|) := by
  refine ⟨?_, ?_, ?_, ?_⟩
  · simp [computeRmsAndPeak]
  · intro data
    simp only [computeRmsAndPeak]
    rw [rmsPeak_fold_fst]
    norm_num
  · intro data v hv
    simp only [computeRmsAndPeak]
    rw [rmsPeak_fold_snd]
    exact foldl_max_abs_mem_le data 0 v hv
  · intro data hne
    simp only [computeRmsAndPeak]
    rw [rmsPeak_fold_snd]
    rcases foldl_max_abs_attained data 0 with h | h
    · obtain ⟨x, hx⟩ := List.exists_mem_of_ne_nil data hne
      refine ⟨x, hx, ?_⟩
      have h1 := foldl_max_abs_mem_le data 0 x hx
      rw [h] at h1 ⊢
      exact (le_antisymm h1 (abs_nonneg x)).symm
    · exact h

/-- C10 witness: instantiation of the peak bound and its attainment at
the block `[1, -2]`. -/
theorem c10_rms_peak_total_witness :
    ((1 : ℝ) ∈ [(1 : ℝ), -2]) ∧ ([(1 : ℝ), -2] ≠ []) ∧
    |(1 : ℝ)| ≤ (computeRmsAndPeak [(1 : ℝ), -2]).2 ∧
    (∃ v ∈ [(1 : ℝ), -2], (computeRmsAndPeak [(1 : ℝ), -2]).2 = |v|) :=
  ⟨by simp, by simp,
   c10_rms_peak_total.2.2.1 [(1 : ℝ), -2] 1 (by simp),
   c10_rms_peak_total.2.2.2 [(1 : ℝ), -2] (by simp)⟩

end NoiseMonitor
